import Mathlib

/-!
# Account subsystem of tripreporter

A shallow embedding of `main.go` (`validateEnvKeys`, the NodeID setup of `main`) and of
`api/account.go` (the eight account handlers).

The handlers call into code of other files (`models`, `types`, `util`, the `ctx` helpers of
package `api`).  Those calls are taken as the fields of an
environment `Env σ` over an arbitrary world state `σ` (database, cache, clock): every theorem
about a handler holds for every behaviour of the model layer.  A handler run yields the
sequence of the calls it made, with their receivers and results, and the world it leaves.
-/

namespace Tripreporter

/-! ## main.go -/

/-- The loop of `validateEnvKeys` of main.go: it appends to `missing` every key whose value
`os.Getenv` reports as empty; `getenv` is `os.Getenv` (the empty string for an unset key). -/
def validateEnvKeysLoop (getenv : String → String) : List String → List String → List String
  | [], missing => missing
  | key :: keys, missing =>
    if getenv key = "" then validateEnvKeysLoop getenv keys (missing ++ [key])
    else validateEnvKeysLoop getenv keys missing

/-- Function `validateEnvKeys` of main.go; `none` is the nil error, `some msg` the error made by
`errors.New(msg)`. `strings.Join` is `String.intercalate`. -/
def validateEnvKeys (getenv : String → String) (keys : List String) : Option String :=
  let missing := validateEnvKeysLoop getenv keys []
  if missing.length > 0 then some ("[" ++ ", ".intercalate missing ++ "]") else none

/-- The statement `randomID[5] |= 0x01` of main on a byte slice: `none` is the run-time panic
of an index out of range. -/
def setNodeIDBit (randomID : List Nat) : Option (List Nat) :=
  if 5 < randomID.length then some (randomID.set 5 ((randomID.getD 5 0 ||| 0x01) % 256))
  else none

/-- NodeID setup of main: the slice handed to `uuid.SetNodeID` for the value `randomID`
returned by `crypto.GenerateRandomBytes(6)`. -/
def mainNodeID (randomID : List Nat) : Option (List Nat) :=
  setNodeIDBit randomID

/-- A well-formed result of `GenerateRandomBytes(6)`: six bytes. -/
def IsRandom6 (randomID : List Nat) : Prop :=
  randomID.length = 6 ∧ ∀ b ∈ randomID, b < 256

/-- Bit `i` of byte `b`. -/
def bitOf (b i : Nat) : Bool := b.testBit i

/-! ## Data model of api/account.go -/

/-- Go `error` value. Two errors are the same Go value when their identity agrees; `text` is
what `err.Error()` returns. -/
structure GoError where
  ident : Nat
  text : String
deriving DecidableEq, Repr

/-- Type `uuid.UUID`, with `0` for `uuid.Nil`. -/
abbrev UUID := Nat

/-- Handle on a `types.Context` (logger, database, cache); `0` is the zero value. -/
abbrev Context := Nat

/-- Struct `models.Unique`. -/
structure Unique where
  ID : UUID
deriving DecidableEq, Repr

/-- Struct `models.User`, with the fields the sources set. -/
structure User where
  Context : Context
  Unique : Unique
deriving DecidableEq, Repr

/-- Struct `models.Account`, with the fields the sources set; `NewUser` is a nilable pointer. -/
structure Account where
  Context : Context
  Unique : Unique
  Type_ : String
  Email : String
  Username : String
  Password : String
  NewUser : Option User
deriving DecidableEq, Repr

/-- Struct `models.Session`, with the fields the sources set or read. -/
structure Session where
  Context : Context
  Unique : Unique
  Refresh : String
deriving DecidableEq, Repr

/-- Go zero value of `models.Account`. -/
def Account.zero : Account :=
  { Context := 0, Unique := ⟨0⟩, Type_ := "", Email := "", Username := "", Password := "",
    NewUser := none }

/-- Go zero value of `models.User`. -/
def User.zero : User := { Context := 0, Unique := ⟨0⟩ }

/-- Go zero value of `models.Session`. -/
def Session.zero : Session := { Context := 0, Unique := ⟨0⟩, Refresh := "" }

/-- Request `*http.Request` as the handlers see it: the raw body and the route variables of
`mux.Vars(r)`. -/
structure Request where
  body : String
  vars : List (String × String)
deriving DecidableEq, Repr

/-- Lookup `vars[key]` of a Go map: `none` when `ok` is false. -/
def Request.var (r : Request) (key : String) : Option String :=
  (r.vars.find? (fun kv => kv.1 == key)).map Prod.snd

/-- The cookie names of package `util` used by the handlers. -/
inductive CookieName
  | CookieRefreshToken
  | CookieJwtToken
deriving DecidableEq, Repr

/-- The canned messages of package `api` used by the handlers. -/
inductive Message
  | MsgOk
  | MsgForbidden
  | MsgNilVariable
deriving DecidableEq, Repr

/-- Modelled from the spec: the status carried by the canned message `MsgForbidden`, whose
declaration is not among the sources; the spec maps bad credentials to 403. For `MsgOk` and
`MsgNilVariable` the spec names no status. -/
def Message.status : Message → Option Nat
  | .MsgForbidden => some 403
  | .MsgOk => none
  | .MsgNilVariable => none

/-- Constant `http.StatusOK`. -/
def StatusOK : Nat := 200
/-- Constant `http.StatusCreated`. -/
def StatusCreated : Nat := 201
/-- Constant `http.StatusBadRequest`. -/
def StatusBadRequest : Nat := 400
/-- Constant `http.StatusInternalServerError`. -/
def StatusInternalServerError : Nat := 500

/-- Constant `time.Hour`, in nanoseconds. -/
def Hour : Int := 3600 * 1000000000

/-- A call made by a handler, in program order, with its receiver or arguments and what it
returned. `HandleStatus`, `Handle`, `HandlePrefixed` and `HandleJson` are the calls of the
response helpers of `ctx`, each of which writes one response; `SetAuthCookie` and
`DeleteAuthCookies` are the calls of the cookie helpers of package api. -/
inductive Event
  | FromBody (ret : Account) (err : Option GoError)
  | AccountGet (recv ret : Account) (err : Option GoError)
  | AccountPost (recv ret : Account) (err : Option GoError)
  | AccountPatch (recv ret : Account) (err : Option GoError)
  | AccountDelete (recv ret : Account) (err : Option GoError)
  | UserPost (recv ret : User) (err : Option GoError)
  | SessionPost (recv ret : Session) (err : Option GoError)
  | ValidateEmail (recv : Account) (err : Option GoError)
  | ValidateUsername (recv : Account) (err : Option GoError)
  | ValidatePassword (recv : Account) (password name : String) (ret : Account)
      (err : Option GoError)
  | SetAuthCookie (name : CookieName) (value : String) (expires : Int)
  | DeleteAuthCookies (names : List CookieName)
  | HandleStatus (msg : String) (status : Nat)
  | Handle (msg : Message)
  | HandlePrefixed (pfx : String) (msg : Message)
  | HandleJson (body : Account) (status : Nat)
deriving DecidableEq, Repr

/-- A value and an error, as a Go method returns them. -/
abbrev Ret (α : Type) := α × Option GoError

/-- The code the handlers call that lives in other files, over a world state `σ`. -/
structure Env (σ : Type) where
  /-- Package variable `ctx.Context` of package api. -/
  ctx : Context
  /-- Sentinel `types.ErrorAccountNotSpecified`. -/
  ErrorAccountNotSpecified : GoError
  /-- Sentinel `types.ErrorAccountNotFound`. -/
  ErrorAccountNotFound : GoError
  /-- Method `(*Account).FromBody(r)`. -/
  FromBody : Account → Request → Ret Account
  /-- Method `(*Account).FromData(a)`: the receiver after the call. -/
  FromData : Account → Account → Account
  /-- Method `(*Account).ClearImmutable()`. -/
  ClearImmutable : Account → Account
  /-- Method `(*Account).Default(a)`: the receiver after the call. -/
  Default : Account → Account → Account
  /-- Method `(*Account).CopyPublic()`. -/
  CopyPublic : Account → Account
  /-- Method `(*Account).ClearAll()`. -/
  ClearAll : Account → Account
  /-- Method `(*Account).Get()`. -/
  Account_Get : σ → Account → Ret Account × σ
  /-- Method `(*Account).Post()`. -/
  Account_Post : σ → Account → Ret Account × σ
  /-- Method `(*Account).Patch()`. -/
  Account_Patch : σ → Account → Ret Account × σ
  /-- Method `(*Account).Delete()`. -/
  Account_Delete : σ → Account → Ret Account × σ
  /-- Method `(*User).Post()`. -/
  User_Post : σ → User → Ret User × σ
  /-- Method `(*Session).Post()`. -/
  Session_Post : σ → Session → Ret Session × σ
  /-- Method `(*Account).ValidateEmail()`. -/
  ValidateEmail : σ → Account → Ret Account × σ
  /-- Method `(*Account).ValidateUsername()`. -/
  ValidateUsername : σ → Account → Ret Account × σ
  /-- Method `(*Account).ValidatePassword(password, name)`. -/
  ValidatePassword : σ → Account → String → String → Ret Account × σ
  /-- Clock `time.Now()`, in nanoseconds. -/
  Now : σ → Int

/-- What a handler run leaves: the calls it made and the world after them. -/
abbrev Run (σ : Type) := List Event × σ

/-! ## api/account.go -/

variable {σ : Type}

/-- Handler `AccountPost` of api/account.go (path /api/v1/account). -/
def AccountPost (env : Env σ) (w : σ) (r : Request) : Run σ :=
  let b := env.FromBody { Account.zero with Context := env.ctx } r
  match b.2 with
  | some err => ([.FromBody b.1 b.2, .HandleStatus err.text StatusBadRequest], w)
  | none =>
    let account := env.ClearImmutable b.1
    let account := env.Default account account
    let p := env.Account_Post w account
    match p.1.2 with
    | some err =>
      ([.FromBody b.1 b.2, .AccountPost account p.1.1 p.1.2,
        .HandleStatus err.text StatusBadRequest], p.2)
    | none =>
      let posted := p.1.1
      let newUser : User :=
        match posted.NewUser with
        | none => { User.zero with Context := env.ctx, Unique := posted.Unique }
        | some user => user
      let u := env.User_Post p.2 newUser
      let posted := { posted with NewUser := some u.1.1 }
      match u.1.2 with
      | some err =>
        ([.FromBody b.1 b.2, .AccountPost account p.1.1 p.1.2, .UserPost newUser u.1.1 u.1.2,
          .HandleStatus ("user: " ++ err.text) StatusBadRequest], u.2)
      | none =>
        let recv := { Session.zero with Context := env.ctx, Unique := posted.Unique }
        let s := env.Session_Post u.2 recv
        match s.1.2 with
        | some err =>
          ([.FromBody b.1 b.2, .AccountPost account p.1.1 p.1.2, .UserPost newUser u.1.1 u.1.2,
            .SessionPost recv s.1.1 s.1.2, .HandleStatus err.text StatusBadRequest], s.2)
        | none =>
          ([.FromBody b.1 b.2, .AccountPost account p.1.1 p.1.2, .UserPost newUser u.1.1 u.1.2,
            .SessionPost recv s.1.1 s.1.2,
            .SetAuthCookie .CookieRefreshToken s.1.1.Refresh (env.Now s.2 + Hour * 15),
            .HandleJson (env.CopyPublic posted) StatusCreated], s.2)

/-- Handler `AccountPostLogin` of api/account.go (path /api/v1/account/login). -/
def AccountPostLogin (env : Env σ) (w : σ) (r : Request) : Run σ :=
  let b := env.FromBody { Account.zero with Context := env.ctx } r
  match b.2 with
  | some err => ([.FromBody b.1 b.2, .HandleStatus err.text StatusBadRequest], w)
  | none =>
    let account := b.1
    let a1 := env.FromData { Account.zero with Context := env.ctx } account
    let g := env.Account_Get w a1
    match g.1.2 with
    | some err =>
      ([.FromBody b.1 b.2, .AccountGet a1 g.1.1 g.1.2,
        .HandleStatus err.text StatusBadRequest], g.2)
    | none =>
      let v := env.ValidatePassword g.2 g.1.1 account.Password "Password"
      match v.1.2 with
      | some _ =>
        ([.FromBody b.1 b.2, .AccountGet a1 g.1.1 g.1.2,
          .ValidatePassword g.1.1 account.Password "Password" v.1.1 v.1.2,
          .Handle .MsgForbidden], v.2)
      | none =>
        let account1 := v.1.1
        let recv := { Session.zero with Context := env.ctx, Unique := account1.Unique }
        let s := env.Session_Post v.2 recv
        match s.1.2 with
        | some err =>
          ([.FromBody b.1 b.2, .AccountGet a1 g.1.1 g.1.2,
            .ValidatePassword g.1.1 account.Password "Password" v.1.1 v.1.2,
            .SessionPost recv s.1.1 s.1.2, .HandleStatus err.text StatusBadRequest], s.2)
        | none =>
          ([.FromBody b.1 b.2, .AccountGet a1 g.1.1 g.1.2,
            .ValidatePassword g.1.1 account.Password "Password" v.1.1 v.1.2,
            .SessionPost recv s.1.1 s.1.2,
            .SetAuthCookie .CookieRefreshToken s.1.1.Refresh (env.Now s.2 + Hour * 15),
            .HandleJson (env.CopyPublic account1) StatusOK], s.2)

/-- Handler `AccountGet` of api/account.go (path /api/v1/account). -/
def AccountGet (env : Env σ) (w : σ) (r : Request) : Run σ :=
  let b := env.FromBody { Account.zero with Context := env.ctx } r
  match b.2 with
  | some err => ([.FromBody b.1 b.2, .HandleStatus err.text StatusBadRequest], w)
  | none =>
    let g := env.Account_Get w b.1
    match g.1.2 with
    | some err =>
      if err = env.ErrorAccountNotSpecified ∨ err = env.ErrorAccountNotFound then
        ([.FromBody b.1 b.2, .AccountGet b.1 g.1.1 g.1.2,
          .HandleStatus err.text StatusBadRequest], g.2)
      else
        ([.FromBody b.1 b.2, .AccountGet b.1 g.1.1 g.1.2,
          .HandleStatus err.text StatusInternalServerError], g.2)
    | none =>
      ([.FromBody b.1 b.2, .AccountGet b.1 g.1.1 g.1.2,
        .HandleJson (env.CopyPublic g.1.1) StatusOK], g.2)

/-- Handler `AccountPatch` of api/account.go (path /api/v1/account). -/
def AccountPatch (env : Env σ) (w : σ) (r : Request) : Run σ :=
  let b := env.FromBody { Account.zero with Context := env.ctx } r
  match b.2 with
  | some err => ([.FromBody b.1 b.2, .HandleStatus err.text StatusBadRequest], w)
  | none =>
    let account := env.ClearImmutable b.1
    let p := env.Account_Patch w account
    match p.1.2 with
    | some err =>
      ([.FromBody b.1 b.2, .AccountPatch account p.1.1 p.1.2,
        .HandleStatus err.text StatusBadRequest], p.2)
    | none =>
      ([.FromBody b.1 b.2, .AccountPatch account p.1.1 p.1.2,
        .HandleJson (env.CopyPublic p.1.1) StatusOK], p.2)

/-- Handler `AccountDelete` of api/account.go (path /api/v1/account). -/
def AccountDelete (env : Env σ) (w : σ) (r : Request) : Run σ :=
  let b := env.FromBody { Account.zero with Context := env.ctx } r
  match b.2 with
  | some err => ([.FromBody b.1 b.2, .HandleStatus err.text StatusBadRequest], w)
  | none =>
    let d := env.Account_Delete w b.1
    match d.1.2 with
    | some err =>
      ([.FromBody b.1 b.2, .AccountDelete b.1 d.1.1 d.1.2,
        .HandleStatus err.text StatusBadRequest], d.2)
    | none =>
      ([.FromBody b.1 b.2, .AccountDelete b.1 d.1.1 d.1.2,
        .DeleteAuthCookies [.CookieRefreshToken, .CookieJwtToken],
        .HandleJson (env.ClearAll d.1.1) StatusOK], d.2)

/-- Handler `AccountValidateEmail` of api/account.go (path /api/v1/account/validate/email/{email}). -/
def AccountValidateEmail (env : Env σ) (w : σ) (r : Request) : Run σ :=
  match r.var "email" with
  | none => ([.HandlePrefixed "`email`" .MsgNilVariable], w)
  | some email =>
    let recv := { Account.zero with Context := env.ctx, Email := email }
    let v := env.ValidateEmail w recv
    match v.1.2 with
    | some err => ([.ValidateEmail recv v.1.2, .HandleStatus err.text StatusBadRequest], v.2)
    | none => ([.ValidateEmail recv v.1.2, .Handle .MsgOk], v.2)

/-- Handler `AccountValidateUsername` of api/account.go
(path /api/v1/account/validate/username/{username}). -/
def AccountValidateUsername (env : Env σ) (w : σ) (r : Request) : Run σ :=
  match r.var "username" with
  | none => ([.HandlePrefixed "`username`" .MsgNilVariable], w)
  | some username =>
    let recv := { Account.zero with Context := env.ctx, Username := username }
    let v := env.ValidateUsername w recv
    match v.1.2 with
    | some err => ([.ValidateUsername recv v.1.2, .HandleStatus err.text StatusBadRequest], v.2)
    | none => ([.ValidateUsername recv v.1.2, .Handle .MsgOk], v.2)

/-- Handler `AccountValidatePassword` of api/account.go
(path /api/v1/account/validate/password/{password}). -/
def AccountValidatePassword (env : Env σ) (w : σ) (r : Request) : Run σ :=
  match r.var "password" with
  | none => ([.HandlePrefixed "`password`" .MsgNilVariable], w)
  | some password =>
    let recv := { Account.zero with Context := env.ctx }
    let v := env.ValidatePassword w recv password "Password"
    match v.1.2 with
    | some err =>
      ([.ValidatePassword recv password "Password" v.1.1 v.1.2,
        .HandleStatus err.text StatusBadRequest], v.2)
    | none => ([.ValidatePassword recv password "Password" v.1.1 v.1.2, .Handle .MsgOk], v.2)

/-! ## Reading a run -/

/-- The event writes the HTTP response. -/
def Event.isResponse : Event → Bool
  | .HandleStatus _ _ => true
  | .Handle _ => true
  | .HandlePrefixed _ _ => true
  | .HandleJson _ _ => true
  | _ => false

/-- The HTTP status a response event writes, where it is known. -/
def Event.status : Event → Option Nat
  | .HandleStatus _ status => some status
  | .Handle msg => msg.status
  | .HandlePrefixed _ msg => msg.status
  | .HandleJson _ status => some status
  | _ => none

/-- The error a step returned, for the events that are steps of a handler. -/
def Event.err : Event → Option GoError
  | .FromBody _ err => err
  | .AccountGet _ _ err => err
  | .AccountPost _ _ err => err
  | .AccountPatch _ _ err => err
  | .AccountDelete _ _ err => err
  | .UserPost _ _ err => err
  | .SessionPost _ _ err => err
  | .ValidateEmail _ err => err
  | .ValidateUsername _ err => err
  | .ValidatePassword _ _ _ _ err => err
  | _ => none

/-- The event is a call of `(*Session).Post`. -/
def Event.isSessionPost : Event → Bool
  | .SessionPost _ _ _ => true
  | _ => false

/-- The event is a call of `(*User).Post`. -/
def Event.isUserPost : Event → Bool
  | .UserPost _ _ _ => true
  | _ => false

/-- The event sets a cookie. -/
def Event.isSetAuthCookie : Event → Bool
  | .SetAuthCookie _ _ _ => true
  | _ => false

/-- The event deletes cookies. -/
def Event.isDeleteAuthCookies : Event → Bool
  | .DeleteAuthCookies _ => true
  | _ => false

/-- The responses written during a run, in order. -/
def responses (run : Run σ) : List Event := run.1.filter Event.isResponse

/-- The receiver `&models.Account{Context: ctx.Context}` the handlers build. -/
def Env.newAccount (env : Env σ) : Account := { Account.zero with Context := env.ctx }

/-- The parsed request body: what `(&models.Account{Context: ctx.Context}).FromBody(r)`
returns, the first statement of the five account handlers. -/
def Env.body (env : Env σ) (r : Request) : Ret Account :=
  env.FromBody env.newAccount r

/-- The user on which `AccountPost` invokes `Post()`, for the account `posted` that
`account.Post()` returned: a blank one with the account's `Unique` when `NewUser` is nil,
the supplied `NewUser` otherwise. -/
def Env.newUserOf (env : Env σ) (posted : Account) : User :=
  match posted.NewUser with
  | none => { User.zero with Context := env.ctx, Unique := posted.Unique }
  | some user => user

/-- The session on which `AccountPost` and `AccountPostLogin` invoke `Post()`, for the
account `account`. -/
def Env.newSession (env : Env σ) (account : Account) : Session :=
  { Session.zero with Context := env.ctx, Unique := account.Unique }

/-- The accounts on which `Patch()` was invoked during a run, in order. -/
def patchReceivers : List Event → List Account
  | [] => []
  | .AccountPatch recv _ _ :: rest => recv :: patchReceivers rest
  | _ :: rest => patchReceivers rest

/-- The accounts on which `(*Account).Post()` was invoked during a run, in order. -/
def postReceivers : List Event → List Account
  | [] => []
  | .AccountPost recv _ _ :: rest => recv :: postReceivers rest
  | _ :: rest => postReceivers rest

/-- The response `resp` of one of the five account handlers reports the error of the failed
step `failed`: it is the forbidden message when the step is the password validation, and in
every other case it carries the error's text, after "user: " when the step is the user's
Post. -/
def Reports (failed resp : Event) : Prop :=
  match failed.err with
  | none => False
  | some err =>
    match failed, resp with
    | .ValidatePassword _ _ _ _ _, .Handle msg => msg = .MsgForbidden
    | .ValidatePassword _ _ _ _ _, _ => False
    | .UserPost _ _ _, .HandleStatus msg _ => msg = "user: " ++ err.text
    | .UserPost _ _ _, _ => False
    | _, .HandleStatus msg _ => msg = err.text
    | _, _ => False

/-- The shape of a run that stops at the first error: calls that returned no error, none of
them a response, and then either the one response, or one call that returned an error
followed by the one response, which reports that error. -/
def StopsAtFirstError : List Event → Prop
  | [] => False
  | [resp] => resp.isResponse = true
  | step :: next :: rest =>
    step.isResponse = false ∧
    match step.err with
    | none => StopsAtFirstError (next :: rest)
    | some _ => rest = [] ∧ next.isResponse = true ∧ Reports step next

/-! ## A concrete model layer -/

/-- A small model layer over a world that counts the calls made: the account "alice" is
stored, the only accepted password is "secret", and storage never fails except `Patch` and
`Delete`, which report a lost connection. -/
def demoEnv : Env Nat where
  ctx := 1
  ErrorAccountNotSpecified := ⟨1, "account not specified"⟩
  ErrorAccountNotFound := ⟨2, "account not found"⟩
  FromBody recv r :=
    if r.body = "" then (recv, some ⟨3, "empty body"⟩)
    else
      ({ recv with
          Unique := ⟨99⟩, Username := r.body, Password := "secret",
          NewUser := if r.body = "carol" then some ⟨0, ⟨7⟩⟩ else none }, none)
  FromData recv a := { recv with Unique := a.Unique, Username := a.Username }
  ClearImmutable a := { a with Unique := ⟨0⟩ }
  Default recv _ := { recv with Type_ := "Account" }
  CopyPublic a := { a with Password := "" }
  ClearAll a := { Account.zero with Context := a.Context }
  Account_Get w a :=
    if a.Username = "alice" then (({ a with Unique := ⟨1⟩ }, none), w + 1)
    else if a.Username = "mallory" then ((a, some ⟨9, "connection refused"⟩), w + 1)
    else ((a, some ⟨2, "account not found"⟩), w + 1)
  Account_Post w a := (({ a with Unique := ⟨1⟩ }, none), w + 1)
  Account_Patch w a := ((a, some ⟨9, "connection refused"⟩), w + 1)
  Account_Delete w a := ((a, some ⟨9, "connection refused"⟩), w + 1)
  User_Post w u := ((u, none), w + 1)
  Session_Post w s := (({ s with Refresh := "token" }, none), w + 1)
  ValidateEmail w a := ((a, if a.Email = "" then some ⟨4, "email is empty"⟩ else none), w)
  ValidateUsername w a :=
    ((a, if a.Username = "" then some ⟨5, "username is empty"⟩ else none), w)
  ValidatePassword w a password _ :=
    ((a, if password = "secret" then none else some ⟨6, "password is wrong"⟩), w)
  Now w := 1000 + w

/-- The model layer `demoEnv` with a session store that is down: `(*Session).Post` reports a
lost connection. -/
def demoEnvDown : Env Nat :=
  { demoEnv with Session_Post := fun w s => ((s, some ⟨9, "connection refused"⟩), w + 1) }

/-- The model layer `demoEnv` with one stored password, "hunter2". -/
def demoEnvLocked : Env Nat :=
  { demoEnv with
    ValidatePassword := fun w a password _ =>
      ((a, if password = "hunter2" then none else some ⟨6, "password is wrong"⟩), w) }

/-- A request with the given body and no route variables. -/
def demoRequest (body : String) : Request := { body := body, vars := [] }

/-- Modelled from the spec: what `(*Account).ClearImmutable()`, a method of package models
whose source is in another file, does to the ID, the field the spec names as immutable after
creation: the account it returns carries the nil ID, and it is the same account whatever ID
the receiver carried. -/
def ClearsID (env : Env σ) : Prop :=
  ∀ a : Account, (env.ClearImmutable a).Unique = ⟨0⟩ ∧
    ∀ u : Unique, env.ClearImmutable { a with Unique := u } = env.ClearImmutable a

/-- The model layer `demoEnv` with a body parser that takes the account's ID from the client:
the ID is the length of the body, every other field is fixed. -/
def demoEnvClient : Env Nat :=
  { demoEnv with
    FromBody := fun recv r =>
      if r.body = "" then (recv, some ⟨3, "empty body"⟩)
      else ({ recv with Unique := ⟨r.body.length⟩, Username := "dave", Password := "secret" },
        none) }

/-! ## Theorems: main.go -/

/-- The loop of `validateEnvKeys` appends to `missing` the keys with an empty value, in the
order of the argument list. -/
theorem validateEnvKeysLoop_eq (getenv : String → String) (keys missing : List String) :
    validateEnvKeysLoop getenv keys missing
      = missing ++ keys.filter (fun key => decide (getenv key = "")) := by
  induction keys generalizing missing with
  | nil => simp [validateEnvKeysLoop]
  | cons key keys ih =>
    by_cases h : getenv key = ""
    · simp [validateEnvKeysLoop, h, ih]
    · simp [validateEnvKeysLoop, h, ih]

/-- C8: `validateEnvKeys` returns nil exactly when every listed key has a non-empty value in
the environment; in every other case it returns the error whose message is "[" followed by
the keys with an empty or unset value, in the order of the argument list and as often as they
are listed, joined by ", ", followed by "]". -/
theorem validateEnvKeys_spec (getenv : String → String) (keys : List String) :
    (validateEnvKeys getenv keys = none ↔ ∀ key ∈ keys, getenv key ≠ "") ∧
    (validateEnvKeys getenv keys = none ∨
      validateEnvKeys getenv keys
        = some ("[" ++ ", ".intercalate (keys.filter (fun key => decide (getenv key = "")))
            ++ "]")) := by
  have hloop := validateEnvKeysLoop_eq getenv keys []
  simp only [List.nil_append] at hloop
  unfold validateEnvKeys
  simp only [hloop]
  by_cases h : 0 < (keys.filter (fun key => decide (getenv key = ""))).length
  · rw [if_pos h]
    refine ⟨?_, Or.inr rfl⟩
    constructor
    · intro hn; cases hn
    · intro hall
      exfalso
      obtain ⟨key, hkey⟩ := List.exists_mem_of_length_pos h
      rw [List.mem_filter] at hkey
      exact hall key hkey.1 (by simpa using hkey.2)
  · rw [if_neg h]
    refine ⟨?_, Or.inl rfl⟩
    refine ⟨fun _ => ?_, fun _ => rfl⟩
    intro key hkey hempty
    apply h
    apply List.length_pos_of_mem
    exact List.mem_filter.mpr ⟨hkey, by simpa using hempty⟩

/-- What the NodeID setup of main does for six random bytes: the index is in range, the
least significant bit of the byte at index 5 (the last one) is set, and every other bit of
the six bytes is the random one. -/
theorem mainNodeID_sets_index_5 (randomID : List Nat) (h : IsRandom6 randomID) :
    ∃ nodeID, mainNodeID randomID = some nodeID ∧ nodeID.length = 6 ∧
      bitOf (nodeID.getD 5 0) 0 = true ∧
      ∀ i j, i < 6 → j < 8 → (i, j) ≠ (5, 0) →
        bitOf (nodeID.getD i 0) j = bitOf (randomID.getD i 0) j := by
  obtain ⟨hlen, hbytes⟩ := h
  match randomID, hlen, hbytes with
  | [b0, b1, b2, b3, b4, b5], _, hbytes =>
    have h5 : b5 < 256 := hbytes b5 (by simp)
    refine ⟨[b0, b1, b2, b3, b4, (b5 ||| 1) % 256], by simp [mainNodeID, setNodeIDBit], rfl,
      ?_, ?_⟩
    · have hlt : b5 ||| 1 < 256 := Nat.or_lt_two_pow (n := 8) h5 (by norm_num)
      simp [bitOf, Nat.mod_eq_of_lt hlt]
    · intro i j hi hj hne
      have hlt : b5 ||| 1 < 256 := Nat.or_lt_two_pow (n := 8) h5 (by norm_num)
      interval_cases i <;> try rfl
      simp only [List.getD_cons_succ, List.getD_cons_zero, bitOf, Nat.mod_eq_of_lt hlt,
        Nat.testBit_or]
      have hj0 : j ≠ 0 := fun h0 => hne (by rw [h0])
      have : Nat.testBit 1 j = false := by
        interval_cases j <;> first | exact absurd rfl hj0 | rfl
      simp [this]

/-- C9, at the all-zero random value: the node ID handed to `uuid.SetNodeID` still has a
first byte with least significant bit 0; the bit that is set is that of the byte at
index 5. -/
theorem mainNodeID_first_byte_unset :
    mainNodeID [0, 0, 0, 0, 0, 0] = some [0, 0, 0, 0, 0, 1] ∧
    bitOf (([0, 0, 0, 0, 0, 1] : List Nat).getD 0 0) 0 = false ∧
    bitOf (([0, 0, 0, 0, 0, 1] : List Nat).getD 5 0) 0 = true := by
  decide

/-! ## The paths of the handlers -/

/-- The five paths of `AccountPost`, by the first call that returns an error. -/
theorem AccountPost_cases (env : Env σ) (w : σ) (r : Request) :
    (∃ a err, env.body r = (a, some err) ∧
      AccountPost env w r = ([.FromBody a (some err), .HandleStatus err.text 400], w)) ∨
    (∃ a p err w1, env.body r = (a, none) ∧
      env.Account_Post w (env.Default (env.ClearImmutable a) (env.ClearImmutable a))
        = ((p, some err), w1) ∧
      AccountPost env w r =
        ([.FromBody a none,
          .AccountPost (env.Default (env.ClearImmutable a) (env.ClearImmutable a)) p (some err),
          .HandleStatus err.text 400], w1)) ∨
    (∃ a p w1 u err w2, env.body r = (a, none) ∧
      env.Account_Post w (env.Default (env.ClearImmutable a) (env.ClearImmutable a))
        = ((p, none), w1) ∧
      env.User_Post w1 (env.newUserOf p) = ((u, some err), w2) ∧
      AccountPost env w r =
        ([.FromBody a none,
          .AccountPost (env.Default (env.ClearImmutable a) (env.ClearImmutable a)) p none,
          .UserPost (env.newUserOf p) u (some err),
          .HandleStatus ("user: " ++ err.text) 400], w2)) ∨
    (∃ a p w1 u w2 s err w3, env.body r = (a, none) ∧
      env.Account_Post w (env.Default (env.ClearImmutable a) (env.ClearImmutable a))
        = ((p, none), w1) ∧
      env.User_Post w1 (env.newUserOf p) = ((u, none), w2) ∧
      env.Session_Post w2 (env.newSession p) = ((s, some err), w3) ∧
      AccountPost env w r =
        ([.FromBody a none,
          .AccountPost (env.Default (env.ClearImmutable a) (env.ClearImmutable a)) p none,
          .UserPost (env.newUserOf p) u none,
          .SessionPost (env.newSession p) s (some err),
          .HandleStatus err.text 400], w3)) ∨
    (∃ a p w1 u w2 s w3, env.body r = (a, none) ∧
      env.Account_Post w (env.Default (env.ClearImmutable a) (env.ClearImmutable a))
        = ((p, none), w1) ∧
      env.User_Post w1 (env.newUserOf p) = ((u, none), w2) ∧
      env.Session_Post w2 (env.newSession p) = ((s, none), w3) ∧
      AccountPost env w r =
        ([.FromBody a none,
          .AccountPost (env.Default (env.ClearImmutable a) (env.ClearImmutable a)) p none,
          .UserPost (env.newUserOf p) u none,
          .SessionPost (env.newSession p) s none,
          .SetAuthCookie .CookieRefreshToken s.Refresh (env.Now w3 + 15 * Hour),
          .HandleJson (env.CopyPublic { p with NewUser := some u }) 201], w3)) := by
  rcases hb : env.body r with ⟨a, _ | err⟩
  · rcases hp : env.Account_Post w (env.Default (env.ClearImmutable a) (env.ClearImmutable a))
      with ⟨⟨p, _ | perr⟩, w1⟩
    · rcases hu : env.User_Post w1 (env.newUserOf p) with ⟨⟨u, _ | uerr⟩, w2⟩
      · rcases hs : env.Session_Post w2 (env.newSession p) with ⟨⟨s, _ | serr⟩, w3⟩
        · refine Or.inr (Or.inr (Or.inr (Or.inr ⟨a, p, w1, u, w2, s, w3, rfl, hp, hu, hs, ?_⟩)))
          unfold Env.body Env.newAccount at hb
          unfold Env.newUserOf at hu
          unfold Env.newSession at hs
          simp [AccountPost, Env.newUserOf, Env.newSession, hb, hp, hu, hs, StatusCreated,
            mul_comm]
        · refine Or.inr (Or.inr (Or.inr (Or.inl
            ⟨a, p, w1, u, w2, s, serr, w3, rfl, hp, hu, hs, ?_⟩)))
          unfold Env.body Env.newAccount at hb
          unfold Env.newUserOf at hu
          unfold Env.newSession at hs
          simp [AccountPost, Env.newUserOf, Env.newSession, hb, hp, hu, hs, StatusBadRequest]
      · refine Or.inr (Or.inr (Or.inl ⟨a, p, w1, u, uerr, w2, rfl, hp, hu, ?_⟩))
        unfold Env.body Env.newAccount at hb
        unfold Env.newUserOf at hu
        simp [AccountPost, Env.newUserOf, hb, hp, hu, StatusBadRequest]
    · refine Or.inr (Or.inl ⟨a, p, perr, w1, rfl, hp, ?_⟩)
      unfold Env.body Env.newAccount at hb
      simp [AccountPost, hb, hp, StatusBadRequest]
  · refine Or.inl ⟨a, err, rfl, ?_⟩
    unfold Env.body Env.newAccount at hb
    simp [AccountPost, hb, StatusBadRequest]

/-- The five paths of `AccountPostLogin`, by the first call that returns an error. -/
theorem AccountPostLogin_cases (env : Env σ) (w : σ) (r : Request) :
    (∃ a err, env.body r = (a, some err) ∧
      AccountPostLogin env w r = ([.FromBody a (some err), .HandleStatus err.text 400], w)) ∨
    (∃ a g err w1, env.body r = (a, none) ∧
      env.Account_Get w (env.FromData env.newAccount a) = ((g, some err), w1) ∧
      AccountPostLogin env w r =
        ([.FromBody a none, .AccountGet (env.FromData env.newAccount a) g (some err),
          .HandleStatus err.text 400], w1)) ∨
    (∃ a g w1 v err w2, env.body r = (a, none) ∧
      env.Account_Get w (env.FromData env.newAccount a) = ((g, none), w1) ∧
      env.ValidatePassword w1 g a.Password "Password" = ((v, some err), w2) ∧
      AccountPostLogin env w r =
        ([.FromBody a none, .AccountGet (env.FromData env.newAccount a) g none,
          .ValidatePassword g a.Password "Password" v (some err),
          .Handle .MsgForbidden], w2)) ∨
    (∃ a g w1 v w2 s err w3, env.body r = (a, none) ∧
      env.Account_Get w (env.FromData env.newAccount a) = ((g, none), w1) ∧
      env.ValidatePassword w1 g a.Password "Password" = ((v, none), w2) ∧
      env.Session_Post w2 (env.newSession v) = ((s, some err), w3) ∧
      AccountPostLogin env w r =
        ([.FromBody a none, .AccountGet (env.FromData env.newAccount a) g none,
          .ValidatePassword g a.Password "Password" v none,
          .SessionPost (env.newSession v) s (some err),
          .HandleStatus err.text 400], w3)) ∨
    (∃ a g w1 v w2 s w3, env.body r = (a, none) ∧
      env.Account_Get w (env.FromData env.newAccount a) = ((g, none), w1) ∧
      env.ValidatePassword w1 g a.Password "Password" = ((v, none), w2) ∧
      env.Session_Post w2 (env.newSession v) = ((s, none), w3) ∧
      AccountPostLogin env w r =
        ([.FromBody a none, .AccountGet (env.FromData env.newAccount a) g none,
          .ValidatePassword g a.Password "Password" v none,
          .SessionPost (env.newSession v) s none,
          .SetAuthCookie .CookieRefreshToken s.Refresh (env.Now w3 + 15 * Hour),
          .HandleJson (env.CopyPublic v) 200], w3)) := by
  rcases hb : env.body r with ⟨a, _ | err⟩
  · rcases hg : env.Account_Get w (env.FromData env.newAccount a) with ⟨⟨g, _ | gerr⟩, w1⟩
    · rcases hv : env.ValidatePassword w1 g a.Password "Password" with ⟨⟨v, _ | verr⟩, w2⟩
      · rcases hs : env.Session_Post w2 (env.newSession v) with ⟨⟨s, _ | serr⟩, w3⟩
        · refine Or.inr (Or.inr (Or.inr (Or.inr ⟨a, g, w1, v, w2, s, w3, rfl, hg, hv, hs, ?_⟩)))
          unfold Env.body Env.newAccount at hb
          unfold Env.newAccount at hg
          unfold Env.newSession at hs
          simp [AccountPostLogin, Env.newAccount, Env.newSession, hb, hg, hv, hs, StatusOK,
            mul_comm]
        · refine Or.inr (Or.inr (Or.inr (Or.inl
            ⟨a, g, w1, v, w2, s, serr, w3, rfl, hg, hv, hs, ?_⟩)))
          unfold Env.body Env.newAccount at hb
          unfold Env.newAccount at hg
          unfold Env.newSession at hs
          simp [AccountPostLogin, Env.newAccount, Env.newSession, hb, hg, hv, hs,
            StatusBadRequest]
      · refine Or.inr (Or.inr (Or.inl ⟨a, g, w1, v, verr, w2, rfl, hg, hv, ?_⟩))
        unfold Env.body Env.newAccount at hb
        unfold Env.newAccount at hg
        simp [AccountPostLogin, Env.newAccount, hb, hg, hv]
    · refine Or.inr (Or.inl ⟨a, g, gerr, w1, rfl, hg, ?_⟩)
      unfold Env.body Env.newAccount at hb
      unfold Env.newAccount at hg
      simp [AccountPostLogin, Env.newAccount, hb, hg, StatusBadRequest]
  · refine Or.inl ⟨a, err, rfl, ?_⟩
    unfold Env.body Env.newAccount at hb
    simp [AccountPostLogin, hb, StatusBadRequest]

/-- The four paths of `AccountGet`. -/
theorem AccountGet_cases (env : Env σ) (w : σ) (r : Request) :
    (∃ a err, env.body r = (a, some err) ∧
      AccountGet env w r = ([.FromBody a (some err), .HandleStatus err.text 400], w)) ∨
    (∃ a g err w1, env.body r = (a, none) ∧ env.Account_Get w a = ((g, some err), w1) ∧
      (err = env.ErrorAccountNotSpecified ∨ err = env.ErrorAccountNotFound) ∧
      AccountGet env w r =
        ([.FromBody a none, .AccountGet a g (some err), .HandleStatus err.text 400], w1)) ∨
    (∃ a g err w1, env.body r = (a, none) ∧ env.Account_Get w a = ((g, some err), w1) ∧
      ¬ (err = env.ErrorAccountNotSpecified ∨ err = env.ErrorAccountNotFound) ∧
      AccountGet env w r =
        ([.FromBody a none, .AccountGet a g (some err), .HandleStatus err.text 500], w1)) ∨
    (∃ a g w1, env.body r = (a, none) ∧ env.Account_Get w a = ((g, none), w1) ∧
      AccountGet env w r =
        ([.FromBody a none, .AccountGet a g none, .HandleJson (env.CopyPublic g) 200], w1)) := by
  rcases hb : env.body r with ⟨a, _ | err⟩
  · rcases hg : env.Account_Get w a with ⟨⟨g, _ | gerr⟩, w1⟩
    · refine Or.inr (Or.inr (Or.inr ⟨a, g, w1, rfl, hg, ?_⟩))
      unfold Env.body Env.newAccount at hb
      simp [AccountGet, hb, hg, StatusOK]
    · unfold Env.body Env.newAccount at hb
      by_cases hsentinel : gerr = env.ErrorAccountNotSpecified ∨ gerr = env.ErrorAccountNotFound
      · refine Or.inr (Or.inl ⟨a, g, gerr, w1, rfl, hg, hsentinel, ?_⟩)
        simp only [AccountGet, hb, hg]
        rw [if_pos hsentinel]
        rfl
      · refine Or.inr (Or.inr (Or.inl ⟨a, g, gerr, w1, rfl, hg, hsentinel, ?_⟩))
        simp only [AccountGet, hb, hg]
        rw [if_neg hsentinel]
        rfl
  · refine Or.inl ⟨a, err, rfl, ?_⟩
    unfold Env.body Env.newAccount at hb
    simp [AccountGet, hb, StatusBadRequest]

/-- The three paths of `AccountPatch`. -/
theorem AccountPatch_cases (env : Env σ) (w : σ) (r : Request) :
    (∃ a err, env.body r = (a, some err) ∧
      AccountPatch env w r = ([.FromBody a (some err), .HandleStatus err.text 400], w)) ∨
    (∃ a p err w1, env.body r = (a, none) ∧
      env.Account_Patch w (env.ClearImmutable a) = ((p, some err), w1) ∧
      AccountPatch env w r =
        ([.FromBody a none, .AccountPatch (env.ClearImmutable a) p (some err),
          .HandleStatus err.text 400], w1)) ∨
    (∃ a p w1, env.body r = (a, none) ∧
      env.Account_Patch w (env.ClearImmutable a) = ((p, none), w1) ∧
      AccountPatch env w r =
        ([.FromBody a none, .AccountPatch (env.ClearImmutable a) p none,
          .HandleJson (env.CopyPublic p) 200], w1)) := by
  rcases hb : env.body r with ⟨a, _ | err⟩
  · rcases hp : env.Account_Patch w (env.ClearImmutable a) with ⟨⟨p, _ | perr⟩, w1⟩
    · refine Or.inr (Or.inr ⟨a, p, w1, rfl, hp, ?_⟩)
      unfold Env.body Env.newAccount at hb
      simp [AccountPatch, hb, hp, StatusOK]
    · refine Or.inr (Or.inl ⟨a, p, perr, w1, rfl, hp, ?_⟩)
      unfold Env.body Env.newAccount at hb
      simp [AccountPatch, hb, hp, StatusBadRequest]
  · refine Or.inl ⟨a, err, rfl, ?_⟩
    unfold Env.body Env.newAccount at hb
    simp [AccountPatch, hb, StatusBadRequest]

/-- The three paths of `AccountDelete`. -/
theorem AccountDelete_cases (env : Env σ) (w : σ) (r : Request) :
    (∃ a err, env.body r = (a, some err) ∧
      AccountDelete env w r = ([.FromBody a (some err), .HandleStatus err.text 400], w)) ∨
    (∃ a d err w1, env.body r = (a, none) ∧ env.Account_Delete w a = ((d, some err), w1) ∧
      AccountDelete env w r =
        ([.FromBody a none, .AccountDelete a d (some err), .HandleStatus err.text 400], w1)) ∨
    (∃ a d w1, env.body r = (a, none) ∧ env.Account_Delete w a = ((d, none), w1) ∧
      AccountDelete env w r =
        ([.FromBody a none, .AccountDelete a d none,
          .DeleteAuthCookies [.CookieRefreshToken, .CookieJwtToken],
          .HandleJson (env.ClearAll d) 200], w1)) := by
  rcases hb : env.body r with ⟨a, _ | err⟩
  · rcases hd : env.Account_Delete w a with ⟨⟨d, _ | derr⟩, w1⟩
    · refine Or.inr (Or.inr ⟨a, d, w1, rfl, hd, ?_⟩)
      unfold Env.body Env.newAccount at hb
      simp [AccountDelete, hb, hd, StatusOK]
    · refine Or.inr (Or.inl ⟨a, d, derr, w1, rfl, hd, ?_⟩)
      unfold Env.body Env.newAccount at hb
      simp [AccountDelete, hb, hd, StatusBadRequest]
  · refine Or.inl ⟨a, err, rfl, ?_⟩
    unfold Env.body Env.newAccount at hb
    simp [AccountDelete, hb, StatusBadRequest]


/-! ## Theorems: api/account.go -/

/-- C1: in `AccountGet`, for a request whose body parses, when `account.Get()` returns
`ErrorAccountNotSpecified` or `ErrorAccountNotFound` the one response has status 400 and the
error's text; when it returns any other error the one response has status 500 and the error's
text; when it returns no error the one response has status 200 and the body
`account.CopyPublic()` of the account `Get()` returned. -/
theorem AccountGet_response (env : Env σ) (w : σ) (r : Request) (a : Account)
    (hparse : env.body r = (a, none)) :
    (∀ g err w1, env.Account_Get w a = ((g, some err), w1) →
      (err = env.ErrorAccountNotSpecified ∨ err = env.ErrorAccountNotFound) →
      responses (AccountGet env w r) = [.HandleStatus err.text 400]) ∧
    (∀ g err w1, env.Account_Get w a = ((g, some err), w1) →
      ¬ (err = env.ErrorAccountNotSpecified ∨ err = env.ErrorAccountNotFound) →
      responses (AccountGet env w r) = [.HandleStatus err.text 500]) ∧
    (∀ g w1, env.Account_Get w a = ((g, none), w1) →
      responses (AccountGet env w r) = [.HandleJson (env.CopyPublic g) 200]) := by
  rcases AccountGet_cases env w r with ⟨a', err', hb, hrun⟩ | ⟨a', g', err', w1', hb, hg, hs, hrun⟩ |
    ⟨a', g', err', w1', hb, hg, hs, hrun⟩ | ⟨a', g', w1', hb, hg, hrun⟩
  all_goals
    rw [hparse] at hb
    simp only [Prod.mk.injEq] at hb
  all_goals
    obtain ⟨rfl, hb2⟩ := hb
    refine ⟨?_, ?_, ?_⟩ <;> intros <;> simp_all [responses, Event.isResponse]

/-- Witness of `AccountGet_response`: the lookup of "mallory" loses its connection, which is
answered with status 500. -/
theorem AccountGet_response_witness :
    demoEnv.body (demoRequest "mallory")
      = ({ Context := 1, Unique := ⟨99⟩, Type_ := "", Email := "", Username := "mallory",
           Password := "secret", NewUser := none }, none) ∧
    responses (AccountGet demoEnv 0 (demoRequest "mallory"))
      = [.HandleStatus "connection refused" 500] :=
  ⟨by decide,
   (AccountGet_response demoEnv 0 (demoRequest "mallory")
      { Context := 1, Unique := ⟨99⟩, Type_ := "", Email := "", Username := "mallory",
        Password := "secret", NewUser := none } (by decide)).2.1
     { Context := 1, Unique := ⟨99⟩, Type_ := "", Email := "", Username := "mallory",
       Password := "secret", NewUser := none }
     ⟨9, "connection refused"⟩ 1 (by decide) (by decide)⟩

/-- C2: in `AccountPostLogin`, for a request whose body parses and whose account lookup
succeeds, `ValidatePassword` is called on the stored account with the submitted password;
when it returns an error the one response is the forbidden message, of status 403, no Session
is posted and no cookie is set; and a body is sent with status 200 only when
`ValidatePassword` returned no error, and it is the public copy of the account it returned. -/
theorem AccountPostLogin_password (env : Env σ) (w : σ) (r : Request) (a g : Account) (w1 : σ)
    (hparse : env.body r = (a, none))
    (hget : env.Account_Get w (env.FromData env.newAccount a) = ((g, none), w1)) :
    (∃ v err, Event.ValidatePassword g a.Password "Password" v err
      ∈ (AccountPostLogin env w r).1) ∧
    (∀ v err w2, env.ValidatePassword w1 g a.Password "Password" = ((v, some err), w2) →
      responses (AccountPostLogin env w r) = [.Handle .MsgForbidden] ∧
      (responses (AccountPostLogin env w r)).map Event.status = [some 403] ∧
      (AccountPostLogin env w r).1.filter Event.isSessionPost = [] ∧
      (AccountPostLogin env w r).1.filter Event.isSetAuthCookie = []) ∧
    (∀ body, Event.HandleJson body 200 ∈ (AccountPostLogin env w r).1 →
      ∃ v w2, env.ValidatePassword w1 g a.Password "Password" = ((v, none), w2) ∧
        body = env.CopyPublic v) := by
  rcases AccountPostLogin_cases env w r with ⟨a', err', hb, hrun⟩ |
    ⟨a', g', err', w1', hb, hg, hrun⟩ | ⟨a', g', w1', v', err', w2', hb, hg, hv, hrun⟩ |
    ⟨a', g', w1', v', w2', s', err', w3', hb, hg, hv, hs, hrun⟩ |
    ⟨a', g', w1', v', w2', s', w3', hb, hg, hv, hs, hrun⟩
  all_goals
    rw [hparse] at hb
    simp only [Prod.mk.injEq] at hb
  all_goals
    obtain ⟨rfl, hb2⟩ := hb
    first
    | (cases hb2; done)
    | (rw [hget] at hg
       simp only [Prod.mk.injEq] at hg
       obtain ⟨⟨rfl, hg2⟩, rfl⟩ := hg
       refine ⟨?_, ?_, ?_⟩)
  all_goals simp_all [responses, Event.isResponse, Event.status, Message.status,
    Event.isSessionPost, Event.isSetAuthCookie]

/-- Witness of `AccountPostLogin_password`: "alice" is stored, the submitted password is not
the stored one, and the login is answered with the forbidden message. -/
theorem AccountPostLogin_password_witness :
    responses (AccountPostLogin demoEnvLocked 0 (demoRequest "alice")) = [.Handle .MsgForbidden] ∧
    (responses (AccountPostLogin demoEnvLocked 0 (demoRequest "alice"))).map Event.status
      = [some 403] ∧
    (AccountPostLogin demoEnvLocked 0 (demoRequest "alice")).1.filter Event.isSessionPost = [] ∧
    (AccountPostLogin demoEnvLocked 0 (demoRequest "alice")).1.filter Event.isSetAuthCookie
      = [] :=
  (AccountPostLogin_password demoEnvLocked 0 (demoRequest "alice")
    { Context := 1, Unique := ⟨99⟩, Type_ := "", Email := "", Username := "alice",
      Password := "secret", NewUser := none }
    { Context := 1, Unique := ⟨1⟩, Type_ := "", Email := "", Username := "alice",
      Password := "", NewUser := none } 1 (by decide) (by decide)).2.1
    { Context := 1, Unique := ⟨1⟩, Type_ := "", Email := "", Username := "alice",
      Password := "", NewUser := none } ⟨6, "password is wrong"⟩ 1 (by decide)


/-- C3: in `AccountPost` and in `AccountPostLogin`, `Session.Post` is invoked at most once;
it is invoked exactly once if and only if every step before it returned no error (the body
parsed, `account.Post()` and the user's `Post()` succeeded, respectively `a1.Get()` and
`ValidatePassword` succeeded); and whenever it returned no error, exactly one cookie is set,
the refresh-token cookie, carrying `session.Refresh` and expiring 15 hours after the time
read once the session is posted. -/
theorem SessionPost_once (env : Env σ) (w : σ) (r : Request) :
    (((AccountPost env w r).1.filter Event.isSessionPost).length ≤ 1 ∧
      (((AccountPost env w r).1.filter Event.isSessionPost).length = 1 ↔
        ∃ a p w1 u w2, env.body r = (a, none) ∧
          env.Account_Post w (env.Default (env.ClearImmutable a) (env.ClearImmutable a))
            = ((p, none), w1) ∧
          env.User_Post w1 (env.newUserOf p) = ((u, none), w2)) ∧
      ∀ recv session, Event.SessionPost recv session none ∈ (AccountPost env w r).1 →
        (AccountPost env w r).1.filter Event.isSetAuthCookie
          = [.SetAuthCookie .CookieRefreshToken session.Refresh
              (env.Now (AccountPost env w r).2 + 15 * Hour)]) ∧
    (((AccountPostLogin env w r).1.filter Event.isSessionPost).length ≤ 1 ∧
      (((AccountPostLogin env w r).1.filter Event.isSessionPost).length = 1 ↔
        ∃ a g w1 v w2, env.body r = (a, none) ∧
          env.Account_Get w (env.FromData env.newAccount a) = ((g, none), w1) ∧
          env.ValidatePassword w1 g a.Password "Password" = ((v, none), w2)) ∧
      ∀ recv session, Event.SessionPost recv session none ∈ (AccountPostLogin env w r).1 →
        (AccountPostLogin env w r).1.filter Event.isSetAuthCookie
          = [.SetAuthCookie .CookieRefreshToken session.Refresh
              (env.Now (AccountPostLogin env w r).2 + 15 * Hour)]) := by
  constructor
  · rcases AccountPost_cases env w r with ⟨a, err, hb, hrun⟩ | ⟨a, p, err, w1, hb, hp, hrun⟩ |
      ⟨a, p, w1, u, err, w2, hb, hp, hu, hrun⟩ |
      ⟨a, p, w1, u, w2, s, err, w3, hb, hp, hu, hs, hrun⟩ |
      ⟨a, p, w1, u, w2, s, w3, hb, hp, hu, hs, hrun⟩
    all_goals
      rw [hrun]
      refine ⟨by simp [Event.isSessionPost], ?_, ?_⟩
    all_goals simp_all [Event.isSessionPost, Event.isSetAuthCookie]
    all_goals exact ⟨p, w1, ⟨rfl, rfl⟩, u, w2, hu⟩
  · rcases AccountPostLogin_cases env w r with ⟨a, err, hb, hrun⟩ |
      ⟨a, g, err, w1, hb, hg, hrun⟩ | ⟨a, g, w1, v, err, w2, hb, hg, hv, hrun⟩ |
      ⟨a, g, w1, v, w2, s, err, w3, hb, hg, hv, hs, hrun⟩ |
      ⟨a, g, w1, v, w2, s, w3, hb, hg, hv, hs, hrun⟩
    all_goals
      rw [hrun]
      refine ⟨by simp [Event.isSessionPost], ?_, ?_⟩
    all_goals simp_all [Event.isSessionPost, Event.isSetAuthCookie]
    all_goals exact ⟨g, w1, ⟨rfl, rfl⟩, v, w2, hv⟩


/-- C4: `AccountPatch` invokes `Patch()` only on `ClearImmutable()` of the parsed body, and
`AccountPost` invokes `Post()` only on `ClearImmutable()` followed by `Default` of the parsed
body, once each when the body parses and never otherwise. With a `ClearImmutable()` that
clears the ID, an ID supplied by the client never reaches them: every account handed to
`Patch()` carries the nil ID, and a request that differs from `r` only in the ID its body
carries hands to `Patch()` and to `Post()` the very accounts that `r` hands them. -/
theorem immutable_cleared (env : Env σ) (hclear : ClearsID env) (w : σ) (r : Request) :
    patchReceivers (AccountPatch env w r).1
      = (if (env.body r).2 = none then [env.ClearImmutable (env.body r).1] else []) ∧
    postReceivers (AccountPost env w r).1
      = (if (env.body r).2 = none then
          [env.Default (env.ClearImmutable (env.body r).1) (env.ClearImmutable (env.body r).1)]
        else []) ∧
    (∀ recv ∈ patchReceivers (AccountPatch env w r).1, recv.Unique = ⟨0⟩) ∧
    ∀ (w' : σ) (r' : Request) (u : Unique),
      env.body r' = ({ (env.body r).1 with Unique := u }, (env.body r).2) →
      patchReceivers (AccountPatch env w' r').1 = patchReceivers (AccountPatch env w r).1 ∧
      postReceivers (AccountPost env w' r').1 = postReceivers (AccountPost env w r).1 := by
  have hpatch : ∀ (w : σ) (r : Request), patchReceivers (AccountPatch env w r).1
      = (if (env.body r).2 = none then [env.ClearImmutable (env.body r).1] else []) := by
    intro w r
    rcases AccountPatch_cases env w r with ⟨a, err, hb, hrun⟩ | ⟨a, p, err, w1, hb, hp, hrun⟩ |
      ⟨a, p, w1, hb, hp, hrun⟩
    all_goals simp [hrun, hb, patchReceivers]
  have hpost : ∀ (w : σ) (r : Request), postReceivers (AccountPost env w r).1
      = (if (env.body r).2 = none then
          [env.Default (env.ClearImmutable (env.body r).1) (env.ClearImmutable (env.body r).1)]
        else []) := by
    intro w r
    rcases AccountPost_cases env w r with ⟨a, err, hb, hrun⟩ | ⟨a, p, err, w1, hb, hp, hrun⟩ |
      ⟨a, p, w1, u, err, w2, hb, hp, hu, hrun⟩ |
      ⟨a, p, w1, u, w2, s, err, w3, hb, hp, hu, hs, hrun⟩ |
      ⟨a, p, w1, u, w2, s, w3, hb, hp, hu, hs, hrun⟩
    all_goals simp [hrun, hb, postReceivers]
  refine ⟨hpatch w r, hpost w r, ?_, ?_⟩
  · intro recv hrecv
    rw [hpatch w r] at hrecv
    by_cases hparse : (env.body r).2 = none
    · rw [if_pos hparse, List.mem_singleton] at hrecv
      rw [hrecv]
      exact (hclear _).1
    · rw [if_neg hparse] at hrecv
      cases hrecv
  · intro w' r' u hbody
    rw [hpatch w' r', hpatch w r, hpost w' r', hpost w r, hbody]
    simp [(hclear (env.body r).1).2 u]

/-- Witness of `immutable_cleared`: the bodies "x" and "xxxxxxx" differ only in the ID they
carry, 1 and 7; both requests hand to `Patch()` and to `Post()` the same accounts, which
carry the nil ID. -/
theorem immutable_cleared_witness :
    ClearsID demoEnvClient ∧
    (demoEnvClient.body (demoRequest "x")).1.Unique = ⟨1⟩ ∧
    (demoEnvClient.body (demoRequest "xxxxxxx")).1.Unique = ⟨7⟩ ∧
    (patchReceivers (AccountPatch demoEnvClient 0 (demoRequest "xxxxxxx")).1).map Account.Unique
      = [⟨0⟩] ∧
    (postReceivers (AccountPost demoEnvClient 0 (demoRequest "xxxxxxx")).1).map Account.Unique
      = [⟨0⟩] ∧
    patchReceivers (AccountPatch demoEnvClient 0 (demoRequest "xxxxxxx")).1
      = patchReceivers (AccountPatch demoEnvClient 0 (demoRequest "x")).1 ∧
    postReceivers (AccountPost demoEnvClient 0 (demoRequest "xxxxxxx")).1
      = postReceivers (AccountPost demoEnvClient 0 (demoRequest "x")).1 :=
  have hclear : ClearsID demoEnvClient := fun _ => ⟨rfl, fun _ => rfl⟩
  have h := immutable_cleared demoEnvClient hclear 0 (demoRequest "x")
  ⟨hclear, by decide, by decide, by decide, by decide,
   (h.2.2.2 0 (demoRequest "xxxxxxx") ⟨7⟩ (by decide)).1,
   (h.2.2.2 0 (demoRequest "xxxxxxx") ⟨7⟩ (by decide)).2⟩

/-- The user `AccountPost` posts is the one `Env.newUserOf` gives for the account that
`account.Post()` returned; when that account has no `NewUser`, the user has the account's
`Unique`. -/
theorem AccountPost_user_receiver (env : Env σ) (w : σ) (r : Request) (recv ret : User)
    (err : Option GoError) (h : Event.UserPost recv ret err ∈ (AccountPost env w r).1) :
    ∃ a p w1, env.body r = (a, none) ∧
      env.Account_Post w (env.Default (env.ClearImmutable a) (env.ClearImmutable a))
        = ((p, none), w1) ∧
      recv = env.newUserOf p ∧ (p.NewUser = none → recv.Unique = p.Unique) := by
  have hblank : ∀ p : Account, p.NewUser = none → (env.newUserOf p).Unique = p.Unique := by
    intro p hp
    simp [Env.newUserOf, hp]
  rcases AccountPost_cases env w r with ⟨a, err, hb, hrun⟩ | ⟨a, p, err, w1, hb, hp, hrun⟩ |
    ⟨a, p, w1, u, err, w2, hb, hp, hu, hrun⟩ |
    ⟨a, p, w1, u, w2, s, err, w3, hb, hp, hu, hs, hrun⟩ |
    ⟨a, p, w1, u, w2, s, w3, hb, hp, hu, hs, hrun⟩
  all_goals
    rw [hrun] at h
    simp at h
  all_goals
    obtain ⟨rfl, -, -⟩ := h
    exact ⟨a, p, w1, hb, hp, rfl, hblank p⟩

/-- C5, at a registration that supplies a `NewUser` with the ID 7: `account.Post()` returns
the account with the ID 1 and the supplied `NewUser`, and the user on which `Post()` is then
invoked still has the ID 7, not the account's. -/
theorem AccountPost_supplied_user_unlinked :
    (AccountPost demoEnv 0 (demoRequest "carol")).1 =
      [.FromBody
         { Context := 1, Unique := ⟨99⟩, Type_ := "", Email := "", Username := "carol",
           Password := "secret", NewUser := some { Context := 0, Unique := ⟨7⟩ } } none,
       .AccountPost
         { Context := 1, Unique := ⟨0⟩, Type_ := "Account", Email := "", Username := "carol",
           Password := "secret", NewUser := some { Context := 0, Unique := ⟨7⟩ } }
         { Context := 1, Unique := ⟨1⟩, Type_ := "Account", Email := "", Username := "carol",
           Password := "secret", NewUser := some { Context := 0, Unique := ⟨7⟩ } } none,
       .UserPost { Context := 0, Unique := ⟨7⟩ } { Context := 0, Unique := ⟨7⟩ } none,
       .SessionPost { Context := 1, Unique := ⟨1⟩, Refresh := "" }
         { Context := 1, Unique := ⟨1⟩, Refresh := "token" } none,
       .SetAuthCookie .CookieRefreshToken "token" (1003 + 15 * Hour),
       .HandleJson
         { Context := 1, Unique := ⟨1⟩, Type_ := "Account", Email := "", Username := "carol",
           Password := "", NewUser := some { Context := 0, Unique := ⟨7⟩ } } 201] ∧
    (⟨7⟩ : Unique) ≠ ⟨1⟩ := by
  decide

/-- C6, at requests whose only failure is internal: the session store is down during a
registration and during a login, and the database connection is lost during a patch and
during a delete; each is answered with status 400, not 500. -/
theorem internal_failure_status_400 :
    responses (AccountPost demoEnvDown 0 (demoRequest "bob"))
      = [.HandleStatus "connection refused" 400] ∧
    responses (AccountPostLogin demoEnvDown 0 (demoRequest "alice"))
      = [.HandleStatus "connection refused" 400] ∧
    responses (AccountPatch demoEnv 0 (demoRequest "alice"))
      = [.HandleStatus "connection refused" 400] ∧
    responses (AccountDelete demoEnv 0 (demoRequest "alice"))
      = [.HandleStatus "connection refused" 400] ∧
    (AccountPost demoEnvDown 0 (demoRequest "bob")).1.filter Event.isSessionPost
      = [.SessionPost { Context := 1, Unique := ⟨1⟩, Refresh := "" }
          { Context := 1, Unique := ⟨1⟩, Refresh := "" } (some ⟨9, "connection refused"⟩)] ∧
    (AccountPostLogin demoEnvDown 0 (demoRequest "alice")).1.filter Event.isSessionPost
      = [.SessionPost { Context := 1, Unique := ⟨1⟩, Refresh := "" }
          { Context := 1, Unique := ⟨1⟩, Refresh := "" } (some ⟨9, "connection refused"⟩)] := by
  decide


/-- C7: each of `AccountValidateEmail`, `AccountValidateUsername` and
`AccountValidatePassword` answers with the OK message if and only if its route variable is
present and the model validator (`ValidateEmail` on an account with exactly that email,
`ValidateUsername` on an account with exactly that username, `ValidatePassword` of exactly
that password) returns no error; when the validator returns an error the one response has
status 400 and the error's text; when the variable is absent the run is the one response, the
nil-variable message prefixed with the variable's name, and no validator is called. -/
theorem validate_handlers (env : Env σ) (w : σ) (r : Request) :
    ((responses (AccountValidateEmail env w r) = [.Handle .MsgOk] ↔
        ∃ email, r.var "email" = some email ∧
          (env.ValidateEmail w { Account.zero with Context := env.ctx, Email := email }).1.2 = none) ∧
      (∀ email err, r.var "email" = some email →
        (env.ValidateEmail w { Account.zero with Context := env.ctx, Email := email }).1.2 = some err →
        responses (AccountValidateEmail env w r) = [.HandleStatus err.text 400]) ∧
      (r.var "email" = none →
        (AccountValidateEmail env w r).1 = [.HandlePrefixed "`email`" .MsgNilVariable])) ∧
    ((responses (AccountValidateUsername env w r) = [.Handle .MsgOk] ↔
        ∃ username, r.var "username" = some username ∧
          (env.ValidateUsername w { Account.zero with Context := env.ctx, Username := username }).1.2 = none) ∧
      (∀ username err, r.var "username" = some username →
        (env.ValidateUsername w { Account.zero with Context := env.ctx, Username := username }).1.2 = some err →
        responses (AccountValidateUsername env w r) = [.HandleStatus err.text 400]) ∧
      (r.var "username" = none →
        (AccountValidateUsername env w r).1
          = [.HandlePrefixed "`username`" .MsgNilVariable])) ∧
    ((responses (AccountValidatePassword env w r) = [.Handle .MsgOk] ↔
        ∃ password, r.var "password" = some password ∧
          (env.ValidatePassword w env.newAccount password "Password").1.2 = none) ∧
      (∀ password err, r.var "password" = some password →
        (env.ValidatePassword w env.newAccount password "Password").1.2 = some err →
        responses (AccountValidatePassword env w r) = [.HandleStatus err.text 400]) ∧
      (r.var "password" = none →
        (AccountValidatePassword env w r).1
          = [.HandlePrefixed "`password`" .MsgNilVariable])) := by
  refine ⟨?_, ?_, ?_⟩
  · cases hvar : r.var "email" with
    | none =>
      simp [AccountValidateEmail, hvar, responses, Event.isResponse]
    | some email =>
      cases hv : (env.ValidateEmail w { Account.zero with Context := env.ctx, Email := email }).1.2 with
      | none =>
        simp only [Env.newAccount] at hv
        simp [AccountValidateEmail, Env.newAccount, hvar, hv, responses, Event.isResponse]
        rintro _ _ rfl h
        rw [hv] at h
        cases h
      | some err =>
        simp only [Env.newAccount] at hv
        simp [AccountValidateEmail, Env.newAccount, hvar, hv, responses, Event.isResponse,
          StatusBadRequest]
        rintro _ _ rfl h
        rw [hv] at h
        cases h
        rfl
  · cases hvar : r.var "username" with
    | none =>
      simp [AccountValidateUsername, hvar, responses, Event.isResponse]
    | some username =>
      cases hv : (env.ValidateUsername w { Account.zero with Context := env.ctx, Username := username }).1.2 with
      | none =>
        simp only [Env.newAccount] at hv
        simp [AccountValidateUsername, Env.newAccount, hvar, hv, responses, Event.isResponse]
        rintro _ _ rfl h
        rw [hv] at h
        cases h
      | some err =>
        simp only [Env.newAccount] at hv
        simp [AccountValidateUsername, Env.newAccount, hvar, hv, responses, Event.isResponse,
          StatusBadRequest]
        rintro _ _ rfl h
        rw [hv] at h
        cases h
        rfl
  · cases hvar : r.var "password" with
    | none =>
      simp [AccountValidatePassword, hvar, responses, Event.isResponse]
    | some password =>
      cases hv : (env.ValidatePassword w env.newAccount password "Password").1.2 with
      | none =>
        simp only [Env.newAccount] at hv
        simp [AccountValidatePassword, Env.newAccount, hvar, hv, responses, Event.isResponse]
        rintro _ _ rfl h
        rw [hv] at h
        cases h
      | some err =>
        simp only [Env.newAccount] at hv
        simp [AccountValidatePassword, Env.newAccount, hvar, hv, responses, Event.isResponse,
          StatusBadRequest]
        rintro _ _ rfl h
        rw [hv] at h
        cases h
        rfl

/-- A run of the shape `StopsAtFirstError` writes exactly one response. -/
theorem StopsAtFirstError.one_response :
    ∀ trace : List Event, StopsAtFirstError trace → (trace.filter Event.isResponse).length = 1
  | [], h => by simp [StopsAtFirstError] at h
  | [resp], h => by
    simp only [StopsAtFirstError] at h
    simp [h]
  | step :: next :: rest, h => by
    simp only [StopsAtFirstError] at h
    obtain ⟨hstep, h⟩ := h
    cases herr : step.err with
    | none =>
      rw [herr] at h
      have ih := StopsAtFirstError.one_response (next :: rest) h
      rw [List.filter_cons_of_neg (by simp [hstep])]
      exact ih
    | some err =>
      rw [herr] at h
      obtain ⟨rfl, hnext, -⟩ := h
      simp [hstep, hnext]

/-- C10: each of `AccountPost`, `AccountPostLogin`, `AccountGet`, `AccountPatch` and
`AccountDelete` stops at the first error: a run is calls that returned no error followed
either by the one response, or by the one call that returned an error and then the one
response, which reports that error; so exactly one response is written on every path and
nothing is executed after a failed step. In `AccountPost`, when `account.Post()` fails no
user and no session is posted and no cookie is set, and when the user's `Post()` fails no
session is posted; in `AccountDelete`, the auth cookies are deleted only when `Delete()`
returned no error. -/
theorem first_error_propagated (env : Env σ) (w : σ) (r : Request) :
    (StopsAtFirstError (AccountPost env w r).1 ∧ (responses (AccountPost env w r)).length = 1) ∧
    (StopsAtFirstError (AccountPostLogin env w r).1 ∧
      (responses (AccountPostLogin env w r)).length = 1) ∧
    (StopsAtFirstError (AccountGet env w r).1 ∧ (responses (AccountGet env w r)).length = 1) ∧
    (StopsAtFirstError (AccountPatch env w r).1 ∧
      (responses (AccountPatch env w r)).length = 1) ∧
    (StopsAtFirstError (AccountDelete env w r).1 ∧
      (responses (AccountDelete env w r)).length = 1) ∧
    (∀ recv ret err, Event.AccountPost recv ret (some err) ∈ (AccountPost env w r).1 →
      (AccountPost env w r).1.filter Event.isUserPost = [] ∧
      (AccountPost env w r).1.filter Event.isSessionPost = [] ∧
      (AccountPost env w r).1.filter Event.isSetAuthCookie = []) ∧
    (∀ recv ret err, Event.UserPost recv ret (some err) ∈ (AccountPost env w r).1 →
      (AccountPost env w r).1.filter Event.isSessionPost = [] ∧
      (AccountPost env w r).1.filter Event.isSetAuthCookie = []) ∧
    ((AccountDelete env w r).1.filter Event.isDeleteAuthCookies ≠ [] →
      ∃ recv ret, Event.AccountDelete recv ret none ∈ (AccountDelete env w r).1) := by
  have hpost : StopsAtFirstError (AccountPost env w r).1 := by
    rcases AccountPost_cases env w r with ⟨a, err, hb, hrun⟩ | ⟨a, p, err, w1, hb, hp, hrun⟩ |
      ⟨a, p, w1, u, err, w2, hb, hp, hu, hrun⟩ |
      ⟨a, p, w1, u, w2, s, err, w3, hb, hp, hu, hs, hrun⟩ |
      ⟨a, p, w1, u, w2, s, w3, hb, hp, hu, hs, hrun⟩
    all_goals simp [hrun, StopsAtFirstError, Event.isResponse, Event.err, Reports]
  have hlogin : StopsAtFirstError (AccountPostLogin env w r).1 := by
    rcases AccountPostLogin_cases env w r with ⟨a, err, hb, hrun⟩ |
      ⟨a, g, err, w1, hb, hg, hrun⟩ | ⟨a, g, w1, v, err, w2, hb, hg, hv, hrun⟩ |
      ⟨a, g, w1, v, w2, s, err, w3, hb, hg, hv, hs, hrun⟩ |
      ⟨a, g, w1, v, w2, s, w3, hb, hg, hv, hs, hrun⟩
    all_goals simp [hrun, StopsAtFirstError, Event.isResponse, Event.err, Reports]
  have hget : StopsAtFirstError (AccountGet env w r).1 := by
    rcases AccountGet_cases env w r with ⟨a, err, hb, hrun⟩ |
      ⟨a, g, err, w1, hb, hg, hs, hrun⟩ | ⟨a, g, err, w1, hb, hg, hs, hrun⟩ |
      ⟨a, g, w1, hb, hg, hrun⟩
    all_goals simp [hrun, StopsAtFirstError, Event.isResponse, Event.err, Reports]
  have hpatch : StopsAtFirstError (AccountPatch env w r).1 := by
    rcases AccountPatch_cases env w r with ⟨a, err, hb, hrun⟩ | ⟨a, p, err, w1, hb, hp, hrun⟩ |
      ⟨a, p, w1, hb, hp, hrun⟩
    all_goals simp [hrun, StopsAtFirstError, Event.isResponse, Event.err, Reports]
  have hdelete : StopsAtFirstError (AccountDelete env w r).1 := by
    rcases AccountDelete_cases env w r with ⟨a, err, hb, hrun⟩ |
      ⟨a, d, err, w1, hb, hd, hrun⟩ | ⟨a, d, w1, hb, hd, hrun⟩
    all_goals simp [hrun, StopsAtFirstError, Event.isResponse, Event.err, Reports]
  refine ⟨⟨hpost, StopsAtFirstError.one_response _ hpost⟩,
    ⟨hlogin, StopsAtFirstError.one_response _ hlogin⟩,
    ⟨hget, StopsAtFirstError.one_response _ hget⟩,
    ⟨hpatch, StopsAtFirstError.one_response _ hpatch⟩,
    ⟨hdelete, StopsAtFirstError.one_response _ hdelete⟩, ?_, ?_, ?_⟩
  · rcases AccountPost_cases env w r with ⟨a, err, hb, hrun⟩ | ⟨a, p, err, w1, hb, hp, hrun⟩ |
      ⟨a, p, w1, u, err, w2, hb, hp, hu, hrun⟩ |
      ⟨a, p, w1, u, w2, s, err, w3, hb, hp, hu, hs, hrun⟩ |
      ⟨a, p, w1, u, w2, s, w3, hb, hp, hu, hs, hrun⟩
    all_goals simp [hrun, Event.isUserPost, Event.isSessionPost, Event.isSetAuthCookie]
  · rcases AccountPost_cases env w r with ⟨a, err, hb, hrun⟩ | ⟨a, p, err, w1, hb, hp, hrun⟩ |
      ⟨a, p, w1, u, err, w2, hb, hp, hu, hrun⟩ |
      ⟨a, p, w1, u, w2, s, err, w3, hb, hp, hu, hs, hrun⟩ |
      ⟨a, p, w1, u, w2, s, w3, hb, hp, hu, hs, hrun⟩
    all_goals simp [hrun, Event.isUserPost, Event.isSessionPost, Event.isSetAuthCookie]
  · rcases AccountDelete_cases env w r with ⟨a, err, hb, hrun⟩ |
      ⟨a, d, err, w1, hb, hd, hrun⟩ | ⟨a, d, w1, hb, hd, hrun⟩
    all_goals simp [hrun, Event.isDeleteAuthCookies]

end Tripreporter
